import Mathlib

/-!
Verification of the buy-the-dip-bot scoring frontend against its
specification.  The definitions below are shallow embeddings of the
TypeScript source: scores and thresholds are rationals, optional JSON
fields are `Option`, and JavaScript truthiness fallbacks (`x || d`) are
made explicit.
-/

/-- The `ScoringParameters` interface of the scoring-tuning page:
all layer weights and thresholds. -/
structure ScoringParameters where
  quality_gate_weight : ℚ
  dip_signal_weight : ℚ
  reversal_spark_weight : ℚ
  risk_adjustment_weight : ℚ
  quality_fcf_threshold : ℚ
  quality_pe_multiplier : ℚ
  quality_debt_ebitda_max : ℚ
  quality_roe_min : ℚ
  quality_margin_min : ℚ
  dip_sweet_spot_min : ℚ
  dip_sweet_spot_max : ℚ
  dip_rsi_oversold_min : ℚ
  dip_rsi_oversold_max : ℚ
  dip_volume_spike_min : ℚ
  dip_volume_spike_max : ℚ
  reversal_rsi_min : ℚ
  reversal_volume_threshold : ℚ
  reversal_price_action_weight : ℚ
  strong_buy_threshold : ℚ
  buy_threshold : ℚ
  watch_threshold : ℚ
  avoid_threshold : ℚ

/-- The initial `useState` parameter bundle of the scoring-tuning page
(the "current default weights" literal). -/
def initialParameters : ScoringParameters where
  quality_gate_weight := 35
  dip_signal_weight := 45
  reversal_spark_weight := 15
  risk_adjustment_weight := 10
  quality_fcf_threshold := 0
  quality_pe_multiplier := 1.2
  quality_debt_ebitda_max := 3.0
  quality_roe_min := 0.10
  quality_margin_min := 0.05
  dip_sweet_spot_min := 15
  dip_sweet_spot_max := 40
  dip_rsi_oversold_min := 25
  dip_rsi_oversold_max := 35
  dip_volume_spike_min := 1.5
  dip_volume_spike_max := 3.0
  reversal_rsi_min := 30
  reversal_volume_threshold := 1.2
  reversal_price_action_weight := 0.5
  strong_buy_threshold := 80
  buy_threshold := 70
  watch_threshold := 50
  avoid_threshold := 40

/-- The `defaultParams` literal inside `resetToDefaults`. -/
def resetDefaultParams : ScoringParameters where
  quality_gate_weight := 35
  dip_signal_weight := 45
  reversal_spark_weight := 15
  risk_adjustment_weight := 5
  quality_fcf_threshold := 0
  quality_pe_multiplier := 25
  quality_debt_ebitda_max := 3.0
  quality_roe_min := 10
  quality_margin_min := 5
  dip_sweet_spot_min := 15
  dip_sweet_spot_max := 40
  dip_rsi_oversold_min := 25
  dip_rsi_oversold_max := 35
  dip_volume_spike_min := 1.5
  dip_volume_spike_max := 3.0
  reversal_rsi_min := 30
  reversal_volume_threshold := 1.2
  reversal_price_action_weight := 1.0
  strong_buy_threshold := 80
  buy_threshold := 70
  watch_threshold := 50
  avoid_threshold := 40

/-- `resetToDefaults` replaces the whole parameter state with
`resetDefaultParams` (the page calls `setParameters(defaultParams)`). -/
def resetToDefaults (_current : ScoringParameters) : ScoringParameters :=
  resetDefaultParams

/-- The recommendation strings returned by `getRecommendation`. -/
inductive Recommendation where
  | STRONG_BUY
  | BUY
  | WATCH
  | WEAK
  | AVOID
deriving DecidableEq

/-- The four recommendation thresholds `getRecommendation` reads. -/
structure RecThresholds where
  strong_buy_threshold : ℚ
  buy_threshold : ℚ
  watch_threshold : ℚ
  avoid_threshold : ℚ

/-- The threshold cascade of `getRecommendation`. -/
def recOf (score : ℚ) (t : RecThresholds) : Recommendation :=
  if t.strong_buy_threshold ≤ score then .STRONG_BUY
  else if t.buy_threshold ≤ score then .BUY
  else if t.watch_threshold ≤ score then .WATCH
  else if t.avoid_threshold ≤ score then .WEAK
  else .AVOID

/-- The hard-coded `'old'` threshold literal in `getRecommendation`. -/
def oldThresholds : RecThresholds where
  strong_buy_threshold := 80
  buy_threshold := 70
  watch_threshold := 50
  avoid_threshold := 40

/-- The recommendation thresholds carried by a parameter bundle. -/
def ScoringParameters.recThresholds (p : ScoringParameters) : RecThresholds where
  strong_buy_threshold := p.strong_buy_threshold
  buy_threshold := p.buy_threshold
  watch_threshold := p.watch_threshold
  avoid_threshold := p.avoid_threshold

/-- The `type` argument of `getRecommendation`. -/
inductive RecType where
  | old
  | new
deriving DecidableEq

/-- `getRecommendation(score, type)` of the scoring-tuning page: the
`'new'` path reads the live parameters, the `'old'` path the literal
80/70/50/40 thresholds. -/
def getRecommendation (score : ℚ) (ty : RecType) (parameters : ScoringParameters) :
    Recommendation :=
  recOf score (match ty with
    | .new => parameters.recThresholds
    | .old => oldThresholds)


/-- The optional `layer_scores` object under `stock.score_details`:
each field may be absent in the JSON payload. -/
structure LayerScoresOpt where
  quality_gate : Option ℚ
  dip_signal : Option ℚ
  reversal_spark : Option ℚ
  risk_adjustment : Option ℚ

/-- Presence (truthiness) of the three `layer_details` sub-objects that
`simulateScoring` probes for its data-quality issues. -/
structure LayerDetails where
  quality_gate : Bool
  dip_signal : Bool
  reversal_spark : Bool

/-- The optional `score_details` object on a stock record. -/
structure ScoreDetails where
  layer_scores : Option LayerScoresOpt
  layer_details : Option LayerDetails

/-- A stock record as `simulateScoring` reads it. -/
structure Stock where
  ticker : String
  score : Option ℚ
  score_details : Option ScoreDetails

/-- The concrete (defaulted) layer scores a `TestResult` carries. -/
structure LayerScores where
  quality_gate : ℚ
  dip_signal : ℚ
  reversal_spark : ℚ
  risk_adjustment : ℚ

/-- `stock.score_details?.layer_scores.quality_gate || 0`. -/
def Stock.currentQG (stock : Stock) : ℚ :=
  ((stock.score_details.bind (·.layer_scores)).bind (·.quality_gate)).getD 0

/-- `stock.score_details?.layer_scores.dip_signal || 0`. -/
def Stock.currentDS (stock : Stock) : ℚ :=
  ((stock.score_details.bind (·.layer_scores)).bind (·.dip_signal)).getD 0

/-- `stock.score_details?.layer_scores.reversal_spark || 0`. -/
def Stock.currentRS (stock : Stock) : ℚ :=
  ((stock.score_details.bind (·.layer_scores)).bind (·.reversal_spark)).getD 0

/-- `stock.score_details?.layer_scores.risk_adjustment || 0`. -/
def Stock.currentRisk (stock : Stock) : ℚ :=
  ((stock.score_details.bind (·.layer_scores)).bind (·.risk_adjustment)).getD 0

/-- Truthiness of `stock.score_details?.layer_details?.quality_gate`. -/
def Stock.hasQGDetails (stock : Stock) : Bool :=
  (((stock.score_details.bind (·.layer_details)).map (·.quality_gate)).getD false)

/-- Truthiness of `stock.score_details?.layer_details?.dip_signal`. -/
def Stock.hasDSDetails (stock : Stock) : Bool :=
  (((stock.score_details.bind (·.layer_details)).map (·.dip_signal)).getD false)

/-- Truthiness of `stock.score_details?.layer_details?.reversal_spark`. -/
def Stock.hasRSDetails (stock : Stock) : Bool :=
  (((stock.score_details.bind (·.layer_details)).map (·.reversal_spark)).getD false)

/-- The fields of the `TestResult` this embedding tracks: old and new
scores, the re-weighted layer scores, both recommendations and the
data-quality issue list `simulateScoring` accumulates. -/
structure TestResult where
  ticker : String
  old_score : ℚ
  new_score : ℚ
  score_change : ℚ
  old_recommendation : Recommendation
  new_recommendation : Recommendation
  recommendation_changed : Bool
  layer_scores : LayerScores
  issues : List String

/-- `simulateScoring` of the scoring-tuning page: re-weights the stored
layer scores against the default weights (35/45/15), leaves the risk
adjustment unchanged, sums them WITHOUT clamping, and recomputes both
recommendations. -/
def simulateScoring (stock : Stock) (parameters : ScoringParameters) : TestResult :=
  let issues :=
    (if stock.hasQGDetails then [] else ["Missing quality gate data"]) ++
    (if stock.hasDSDetails then [] else ["Missing dip signal data"]) ++
    (if stock.hasRSDetails then [] else ["Missing reversal spark data"])
  let oldScore := stock.score.getD 0
  let newLayerScores : LayerScores :=
    { quality_gate := stock.currentQG * (parameters.quality_gate_weight / 35)
      dip_signal := stock.currentDS * (parameters.dip_signal_weight / 45)
      reversal_spark := stock.currentRS * (parameters.reversal_spark_weight / 15)
      risk_adjustment := stock.currentRisk }
  let newScore := newLayerScores.quality_gate + newLayerScores.dip_signal +
    newLayerScores.reversal_spark + newLayerScores.risk_adjustment
  let oldRecommendation := getRecommendation oldScore .old parameters
  let newRecommendation := getRecommendation newScore .new parameters
  { ticker := stock.ticker
    old_score := oldScore
    new_score := newScore
    score_change := newScore - oldScore
    old_recommendation := oldRecommendation
    new_recommendation := newRecommendation
    recommendation_changed := decide (oldRecommendation ≠ newRecommendation)
    layer_scores := newLayerScores
    issues := issues }

/-- The letter grades appearing in the frontend (A+ down to F). -/
inductive Grade where
  | Aplus
  | A
  | B
  | C
  | D
  | F
deriving DecidableEq

/-- The `overall_grade` ternary chain of the stock-detail page's
scoring-data merge: A at 80, B at 70, C at 60, D at 40, else F. -/
def overall_grade (score : ℚ) : Grade :=
  if 80 ≤ score then .A
  else if 70 ≤ score then .B
  else if 60 ≤ score then .C
  else if 40 ≤ score then .D
  else .F

/-- `getScoreGrade` of the performance-metrics component:
A+ at 90, A at 80, B at 70, C at 60, D at 50, else F. -/
def getScoreGrade (score : ℚ) : Grade :=
  if 90 ≤ score then .Aplus
  else if 80 ≤ score then .A
  else if 70 ≤ score then .B
  else if 60 ≤ score then .C
  else if 50 ≤ score then .D
  else .F

/-- Rank of a recommendation, best highest: a category is strictly worse
than another exactly when its rank is strictly smaller. -/
def recRank : Recommendation → Nat
  | .AVOID => 0
  | .WEAK => 1
  | .WATCH => 2
  | .BUY => 3
  | .STRONG_BUY => 4

/-- Rank of a letter grade, best highest. -/
def gradeRank : Grade → Nat
  | .F => 0
  | .D => 1
  | .C => 2
  | .B => 3
  | .A => 4
  | .Aplus => 5

/-- The percent-below-52-week-high term of `DipSignal.score_dip_metrics`
(enhancement plan, phase 2.3): 15 points inside the 15%--40% sweet spot,
10 points inside the 10%--50% shoulder, 0 beyond. `drop_pct` is the
fractional drop (`drop_from_52w_high_pct / 100`). -/
def dropTerm (drop_pct : ℚ) : ℚ :=
  if 15/100 ≤ drop_pct ∧ drop_pct ≤ 40/100 then 15
  else if 10/100 ≤ drop_pct ∧ drop_pct ≤ 50/100 then 10
  else 0

/-- The RSI-oversold term of `DipSignal.score_dip_metrics`. -/
def rsiTerm (rsi_14 : ℚ) : ℚ :=
  if rsi_14 < 25 then 15
  else if rsi_14 < 30 then 12
  else if rsi_14 < 35 then 8
  else 0

/-- The volume-spike term of `DipSignal.score_dip_metrics`. -/
def volumeTerm (in_spike_sweet_spot : Bool) (volume_spike_ratio : ℚ) : ℚ :=
  if in_spike_sweet_spot then 15
  else if 12/10 ≤ volume_spike_ratio then 8
  else 0

/-- `DipSignal.score_dip_metrics`: the sum of the three terms capped at 45. -/
def score_dip_metrics (drop_from_52w_high_pct rsi_14 : ℚ)
    (in_spike_sweet_spot : Bool) (volume_spike_ratio : ℚ) : ℚ :=
  min (dropTerm (drop_from_52w_high_pct / 100) + rsiTerm rsi_14 +
    volumeTerm in_spike_sweet_spot volume_spike_ratio) 45

/-- An entry of the persisted `buyList` store (localStorage). -/
structure BuyEntry where
  ticker : String
  price : ℚ
  score : ℚ
  addedDate : String
deriving DecidableEq

/-- The add branch of `toggleStar`: `buyList.push(newStock)`. -/
def addToBuyList (buyList : List BuyEntry) (entry : BuyEntry) : List BuyEntry :=
  buyList ++ [entry]

/-- The remove branch of `toggleStar`:
`buyList.filter(s => s.ticker !== stock.ticker)`. -/
def removeFromBuyList (buyList : List BuyEntry) (tick : String) : List BuyEntry :=
  buyList.filter fun s => s.ticker != tick

/-- `toggleStar` on the stock-detail page: branches on the starred flag,
persists the new list and flips the flag. -/
def toggleStar (isStarred : Bool) (buyList : List BuyEntry) (entry : BuyEntry) :
    List BuyEntry × Bool :=
  if isStarred then (removeFromBuyList buyList entry.ticker, false)
  else (addToBuyList buyList entry, true)

/-- JavaScript `v || fallback` on an optional numeric field: the fallback
is taken when the field is absent or zero (falsy). -/
def jsOr (v : Option ℚ) (fallback : ℚ) : ℚ :=
  match v with
  | some x => if x = 0 then fallback else x
  | none => fallback

/-- `high52w` of the investment-recommendation component:
`data['52_week_high'] || price * 1.3`. -/
def high52w (dataHigh : Option ℚ) (price : ℚ) : ℚ :=
  jsOr dataHigh (price * 1.3)

/-- `low52w` of the investment-recommendation component:
`data['52_week_low'] || price * 0.7`. -/
def low52w (dataLow : Option ℚ) (price : ℚ) : ℚ :=
  jsOr dataLow (price * 0.7)

/-- The divisor of the 52-week `rangePosition` computation. -/
def rangeDivisor (dataHigh dataLow : Option ℚ) (price : ℚ) : ℚ :=
  high52w dataHigh price - low52w dataLow price

/-- `rangePosition = ((price - low52w) / (high52w - low52w)) * 100`
(division is the rationals' total division). -/
def rangePosition (dataHigh dataLow : Option ℚ) (price : ℚ) : ℚ :=
  ((price - low52w dataLow price) / rangeDivisor dataHigh dataLow price) * 100

/-- Modelled from the spec: the backend Quality Gate's five binary
pass/fail sub-checks (cash flow, valuation, leverage, profitability,
margin).  The modules `scoring/quality_gate.py` and
`scoring/composite_scorer.py` are not among the repository's source
files; only the spec (section 4.5) and the enhancement plan describe the
hard gate. -/
structure QualityChecks where
  cash_flow_pass : Bool
  valuation_pass : Bool
  leverage_pass : Bool
  profitability_pass : Bool
  margin_pass : Bool

/-- Number of failed binary Quality Gate sub-checks. -/
def QualityChecks.failCount (c : QualityChecks) : Nat :=
  (if c.cash_flow_pass then 0 else 1) + (if c.valuation_pass then 0 else 1) +
  (if c.leverage_pass then 0 else 1) + (if c.profitability_pass then 0 else 1) +
  (if c.margin_pass then 0 else 1)

/-- A symbol's scoring outcome: a numeric composite score, or an
excluded status with a reason code (spec section 9's tagged result). -/
inductive ScoreStatus where
  | Scored (value : ℚ)
  | Excluded (reason : String)
deriving DecidableEq

/-- Modelled from the spec: the composite scorer's result.  When two or
more Quality Gate binary checks fail the symbol is excluded with a
reason code, regardless of the layer scores; otherwise the layer sum is
clamped to [0, 100] (spec section 4.5). -/
def compositeResult (checks : QualityChecks) (layer1 layer2 layer3 adjustment : ℚ) :
    ScoreStatus :=
  if 2 ≤ checks.failCount then .Excluded "quality_gate_hard_fail"
  else .Scored (max 0 (min 100 (layer1 + layer2 + layer3 + adjustment)))

/-- C3: under the default recommendation thresholds (the `'old'` literal
80/70/50/40), `getRecommendation` returns STRONG_BUY exactly when
`80 ≤ s`, BUY exactly when `70 ≤ s < 80`, WATCH exactly when
`50 ≤ s < 70`, WEAK exactly when `40 ≤ s < 50`, and AVOID exactly when
`s < 40`. -/
theorem getRecommendation_default_cutoffs (s : ℚ) (p : ScoringParameters) :
    (getRecommendation s .old p = .STRONG_BUY ↔ 80 ≤ s) ∧
    (getRecommendation s .old p = .BUY ↔ 70 ≤ s ∧ s < 80) ∧
    (getRecommendation s .old p = .WATCH ↔ 50 ≤ s ∧ s < 70) ∧
    (getRecommendation s .old p = .WEAK ↔ 40 ≤ s ∧ s < 50) ∧
    (getRecommendation s .old p = .AVOID ↔ s < 40) := by
  unfold getRecommendation recOf oldThresholds
  dsimp only
  split_ifs with h1 h2 h3 h4 <;>
    refine ⟨?_, ?_, ?_, ?_, ?_⟩ <;> constructor <;> intro h <;>
      first
        | rfl
        | linarith
        | (exact ⟨by linarith, by linarith⟩)
        | (exact absurd h (by simp))

/-- C4: for ascending recommendation thresholds, a strictly higher score
never yields a strictly worse recommendation category (the `'new'` path
of `getRecommendation`), and never a strictly worse `overall_grade`
letter grade. -/
theorem recommendation_and_grade_monotone (p : ScoringParameters) (s1 s2 : ℚ)
    (hs : s2 < s1)
    (_haw : p.avoid_threshold ≤ p.watch_threshold)
    (_hwb : p.watch_threshold ≤ p.buy_threshold)
    (_hbs : p.buy_threshold ≤ p.strong_buy_threshold) :
    recRank (getRecommendation s2 .new p) ≤ recRank (getRecommendation s1 .new p) ∧
    gradeRank (overall_grade s2) ≤ gradeRank (overall_grade s1) := by
  constructor
  · unfold getRecommendation recOf ScoringParameters.recThresholds
    dsimp only
    split_ifs <;> simp only [recRank] <;> first | omega | (exfalso; linarith)
  · unfold overall_grade
    split_ifs <;> simp only [gradeRank] <;> first | omega | (exfalso; linarith)

/-- Witness for C4 at score 75 versus 60 with the tuning page's initial
parameters: BUY (rank 3) is not worse than WATCH (rank 2), grade B not
worse than grade C. -/
theorem recommendation_and_grade_monotone_witness :
    recRank (getRecommendation 60 .new initialParameters) ≤
      recRank (getRecommendation 75 .new initialParameters) ∧
    gradeRank (overall_grade 60) ≤ gradeRank (overall_grade 75) :=
  recommendation_and_grade_monotone initialParameters 75 60 (by norm_num)
    (by norm_num [initialParameters]) (by norm_num [initialParameters])
    (by norm_num [initialParameters])

/-- C5 counterexample: at composite score 90 the stock-detail merge
computes grade A while the performance-metrics component computes A+,
so the letter grade is not a single function of the score. -/
theorem overall_grade_ne_getScoreGrade_at_90 :
    overall_grade 90 = Grade.A ∧ getScoreGrade 90 = Grade.Aplus ∧
    overall_grade 90 ≠ getScoreGrade 90 := by
  have hA : overall_grade 90 = Grade.A := by norm_num [overall_grade]
  have hP : getScoreGrade 90 = Grade.Aplus := by norm_num [getScoreGrade]
  refine ⟨hA, hP, ?_⟩
  rw [hA, hP]
  decide

/-- C5 (amended): the two grade functions agree exactly for scores below
40 or in [50, 90); they differ for scores in [40, 50) (D versus F) and
at or above 90 (A versus A+). -/
theorem overall_grade_eq_getScoreGrade_iff (s : ℚ) :
    overall_grade s = getScoreGrade s ↔ (s < 40 ∨ (50 ≤ s ∧ s < 90)) := by
  unfold overall_grade getScoreGrade
  split_ifs <;>
    constructor <;> intro h <;>
      first
        | rfl
        | (exact Grade.noConfusion h)
        | (left; linarith)
        | (right
           constructor <;> linarith)
        | (exfalso
           rcases h with h | ⟨hA, hB⟩ <;> linarith)

/-- C6 counterexample: drops of 42% and 45% are both outside the
15%--40% sweet spot, 45% strictly farther from it, yet both earn the
same 10 points: the term does not strictly decrease away from the
band. -/
theorem dropTerm_not_strictly_decreasing :
    dropTerm (42/100) = 10 ∧ dropTerm (45/100) = 10 ∧
    ¬ dropTerm (45/100) < dropTerm (42/100) := by
  norm_num [dropTerm]

/-- C6 (amended): the percent-below-high term is maximal (15 points)
exactly inside the 15%--40% sweet spot, steps down to a constant 10
points on the 10%--15% and 40%--50% shoulders, and is 0 beyond those
outer bounds: weakly decreasing away from the band in steps, not
strictly or linearly. -/
theorem dropTerm_step_characterization (d : ℚ) :
    (dropTerm d = 15 ↔ (15/100 ≤ d ∧ d ≤ 40/100)) ∧
    (10/100 ≤ d ∧ d < 15/100 → dropTerm d = 10) ∧
    (40/100 < d ∧ d ≤ 50/100 → dropTerm d = 10) ∧
    (d < 10/100 → dropTerm d = 0) ∧
    (50/100 < d → dropTerm d = 0) := by
  unfold dropTerm
  split_ifs with hband hshoulder
  · obtain ⟨ha, hb⟩ := hband
    refine ⟨by simp [ha, hb], fun hx => ?_, fun hx => ?_, fun hx => ?_, fun hx => ?_⟩
    · exact absurd hx.2 (by linarith)
    · exact absurd hx.1 (by linarith)
    · exact absurd hx (by linarith)
    · exact absurd hx (by linarith)
  · obtain ⟨hc, hd⟩ := hshoulder
    rw [not_and_or] at hband
    refine ⟨⟨fun hx => absurd hx (by norm_num), fun hx => ?_⟩,
      fun _ => rfl, fun _ => rfl, fun hx => ?_, fun hx => ?_⟩
    · rcases hband with hband | hband
      · exact absurd hx.1 hband
      · exact absurd hx.2 hband
    · exact absurd hx (by linarith)
    · exact absurd hx (by linarith)
  · rw [not_and_or] at hband hshoulder
    refine ⟨⟨fun hx => absurd hx (by norm_num), fun hx => ?_⟩,
      fun hx => ?_, fun hx => ?_, fun _ => rfl, fun _ => rfl⟩
    · rcases hband with hband | hband
      · exact absurd hx.1 hband
      · exact absurd hx.2 hband
    · rcases hshoulder with hs | hs
      · exact absurd hx.1 hs
      · exact absurd (le_trans hx.2.le (by norm_num)) hs
    · rcases hshoulder with hs | hs
      · exact absurd (le_trans (by norm_num) hx.1.le) hs
      · exact absurd hx.2 hs

/-- C7 counterexample: resetting to defaults does not restore the
tuning page's initial bundle: the reset sets `risk_adjustment_weight`
to 5 while the page initializes it to 10, so the two bundles differ. -/
theorem resetToDefaults_differs_from_initial :
    (resetToDefaults initialParameters).risk_adjustment_weight = 5 ∧
    initialParameters.risk_adjustment_weight = 10 ∧
    resetToDefaults initialParameters ≠ initialParameters := by
  refine ⟨rfl, rfl, fun h => ?_⟩
  have hw := congrArg ScoringParameters.risk_adjustment_weight h
  norm_num [resetToDefaults, resetDefaultParams, initialParameters] at hw

/-- C7 (amended): the reset bundle agrees with the tuning page's initial
values on seventeen fields but differs on five: risk_adjustment_weight
(5 versus 10), quality_pe_multiplier (25 versus 1.2), quality_roe_min
(10 versus 0.10), quality_margin_min (5 versus 0.05) and
reversal_price_action_weight (1.0 versus 0.5). -/
theorem resetToDefaults_field_comparison :
    ((resetToDefaults initialParameters).quality_gate_weight =
        initialParameters.quality_gate_weight ∧
      (resetToDefaults initialParameters).dip_signal_weight =
        initialParameters.dip_signal_weight ∧
      (resetToDefaults initialParameters).reversal_spark_weight =
        initialParameters.reversal_spark_weight ∧
      (resetToDefaults initialParameters).quality_fcf_threshold =
        initialParameters.quality_fcf_threshold ∧
      (resetToDefaults initialParameters).quality_debt_ebitda_max =
        initialParameters.quality_debt_ebitda_max ∧
      (resetToDefaults initialParameters).dip_sweet_spot_min =
        initialParameters.dip_sweet_spot_min ∧
      (resetToDefaults initialParameters).dip_sweet_spot_max =
        initialParameters.dip_sweet_spot_max ∧
      (resetToDefaults initialParameters).dip_rsi_oversold_min =
        initialParameters.dip_rsi_oversold_min ∧
      (resetToDefaults initialParameters).dip_rsi_oversold_max =
        initialParameters.dip_rsi_oversold_max ∧
      (resetToDefaults initialParameters).dip_volume_spike_min =
        initialParameters.dip_volume_spike_min ∧
      (resetToDefaults initialParameters).dip_volume_spike_max =
        initialParameters.dip_volume_spike_max ∧
      (resetToDefaults initialParameters).reversal_rsi_min =
        initialParameters.reversal_rsi_min ∧
      (resetToDefaults initialParameters).reversal_volume_threshold =
        initialParameters.reversal_volume_threshold ∧
      (resetToDefaults initialParameters).strong_buy_threshold =
        initialParameters.strong_buy_threshold ∧
      (resetToDefaults initialParameters).buy_threshold =
        initialParameters.buy_threshold ∧
      (resetToDefaults initialParameters).watch_threshold =
        initialParameters.watch_threshold ∧
      (resetToDefaults initialParameters).avoid_threshold =
        initialParameters.avoid_threshold) ∧
    ((resetToDefaults initialParameters).risk_adjustment_weight = 5 ∧
        initialParameters.risk_adjustment_weight = 10 ∧
      (resetToDefaults initialParameters).quality_pe_multiplier = 25 ∧
        initialParameters.quality_pe_multiplier = 1.2 ∧
      (resetToDefaults initialParameters).quality_roe_min = 10 ∧
        initialParameters.quality_roe_min = 0.10 ∧
      (resetToDefaults initialParameters).quality_margin_min = 5 ∧
        initialParameters.quality_margin_min = 0.05 ∧
      (resetToDefaults initialParameters).reversal_price_action_weight = 1.0 ∧
        initialParameters.reversal_price_action_weight = 0.5) :=
  ⟨⟨rfl, rfl, rfl, rfl, rfl, rfl, rfl, rfl, rfl, rfl, rfl, rfl, rfl, rfl, rfl,
    rfl, rfl⟩,
   rfl, rfl, rfl, rfl, rfl, rfl, rfl, rfl, rfl, rfl⟩

/-- A stock whose stored layer scores all sit at their documented caps
(quality gate 35, dip signal 45, reversal spark 15, risk adjustment
+10), with complete layer details. -/
def cappedStock : Stock where
  ticker := "CAP"
  score := some 0
  score_details := some
    { layer_scores := some
        { quality_gate := some 35
          dip_signal := some 45
          reversal_spark := some 15
          risk_adjustment := some 10 }
      layer_details := some
        { quality_gate := true
          dip_signal := true
          reversal_spark := true } }

/-- C1 counterexample: with the page's own default weights and layer
scores at their documented caps, the parameter-test scoring path yields
105, above 100 — `simulateScoring` applies no clamp. -/
theorem simulateScoring_exceeds_100 :
    (simulateScoring cappedStock initialParameters).new_score = 105 ∧
    ¬ (simulateScoring cappedStock initialParameters).new_score ≤ 100 := by
  have h : (simulateScoring cappedStock initialParameters).new_score = 105 := by
    norm_num [simulateScoring, cappedStock, initialParameters, Stock.currentQG,
      Stock.currentDS, Stock.currentRS, Stock.currentRisk]
  refine ⟨h, ?_⟩
  rw [h]
  norm_num

/-- C1 (amended): the parameter-test score is an unclamped sum.  With
each stored layer score inside its documented cap (quality gate in
[0, 35], dip signal in [0, 45], reversal spark in [0, 15], risk
adjustment in [-10, 10]) and the default layer weights, the score lies
in [-10, 105]; the [0, 100] bound of the spec does not hold on this
path. -/
theorem simulateScoring_unclamped_bounds (stock : Stock) (p : ScoringParameters)
    (hqg0 : 0 ≤ stock.currentQG) (hqg : stock.currentQG ≤ 35)
    (hds0 : 0 ≤ stock.currentDS) (hds : stock.currentDS ≤ 45)
    (hrs0 : 0 ≤ stock.currentRS) (hrs : stock.currentRS ≤ 15)
    (hr0 : -10 ≤ stock.currentRisk) (hr : stock.currentRisk ≤ 10)
    (hw1 : p.quality_gate_weight = 35) (hw2 : p.dip_signal_weight = 45)
    (hw3 : p.reversal_spark_weight = 15) :
    -10 ≤ (simulateScoring stock p).new_score ∧
    (simulateScoring stock p).new_score ≤ 105 := by
  have h : (simulateScoring stock p).new_score =
      stock.currentQG + stock.currentDS + stock.currentRS + stock.currentRisk := by
    simp only [simulateScoring, hw1, hw2, hw3]
    norm_num
  rw [h]
  constructor <;> linarith

/-- Witness for the amended C1 bound at `cappedStock` with the page's
initial parameters. -/
theorem simulateScoring_unclamped_bounds_witness :
    -10 ≤ (simulateScoring cappedStock initialParameters).new_score ∧
    (simulateScoring cappedStock initialParameters).new_score ≤ 105 :=
  simulateScoring_unclamped_bounds cappedStock initialParameters
    (by norm_num [Stock.currentQG, cappedStock])
    (by norm_num [Stock.currentQG, cappedStock])
    (by norm_num [Stock.currentDS, cappedStock])
    (by norm_num [Stock.currentDS, cappedStock])
    (by norm_num [Stock.currentRS, cappedStock])
    (by norm_num [Stock.currentRS, cappedStock])
    (by norm_num [Stock.currentRisk, cappedStock])
    (by norm_num [Stock.currentRisk, cappedStock])
    rfl rfl rfl

/-- C2: whenever two or more Quality Gate binary sub-checks fail, the
composite result is the excluded status with its reason code, whatever
the dip-signal, reversal-spark and risk layer values are: a hard filter,
not a score penalty. -/
theorem quality_gate_hard_exclusion (checks : QualityChecks)
    (layer1 layer2 layer3 adjustment : ℚ) (h : 2 ≤ checks.failCount) :
    compositeResult checks layer1 layer2 layer3 adjustment =
      .Excluded "quality_gate_hard_fail" := by
  unfold compositeResult
  rw [if_pos h]

/-- The spec's own example of a hard-gated symbol: negative cash-flow
trend and excessive leverage (two binary fails). -/
def twoFailChecks : QualityChecks where
  cash_flow_pass := false
  valuation_pass := true
  leverage_pass := false
  profitability_pass := true
  margin_pass := true

/-- Witness for C2: the two-fail symbol is excluded even with a maximal
dip signal (45), maximal reversal spark (15) and maximal positive risk
adjustment. -/
theorem quality_gate_hard_exclusion_witness :
    compositeResult twoFailChecks 0 45 15 10 =
      .Excluded "quality_gate_hard_fail" :=
  quality_gate_hard_exclusion twoFailChecks 0 45 15 10 (by
    norm_num [twoFailChecks, QualityChecks.failCount])

/-- C8: scoring is deterministic: two runs of `simulateScoring` on equal
stock records and equal parameter bundles return equal results — in
particular the same composite score, the same four layer scores and the
same recommendations. -/
theorem simulateScoring_deterministic (stock1 stock2 : Stock)
    (p1 p2 : ScoringParameters) (hstock : stock1 = stock2) (hp : p1 = p2) :
    (simulateScoring stock1 p1).new_score = (simulateScoring stock2 p2).new_score ∧
    (simulateScoring stock1 p1).layer_scores =
      (simulateScoring stock2 p2).layer_scores ∧
    (simulateScoring stock1 p1).old_recommendation =
      (simulateScoring stock2 p2).old_recommendation ∧
    (simulateScoring stock1 p1).new_recommendation =
      (simulateScoring stock2 p2).new_recommendation ∧
    simulateScoring stock1 p1 = simulateScoring stock2 p2 := by
  subst hstock
  subst hp
  exact ⟨rfl, rfl, rfl, rfl, rfl⟩

/-- Witness for C8: two runs on the capped stock with the initial
parameters agree. -/
theorem simulateScoring_deterministic_witness :
    (simulateScoring cappedStock initialParameters).new_score =
      (simulateScoring cappedStock initialParameters).new_score ∧
    (simulateScoring cappedStock initialParameters).layer_scores =
      (simulateScoring cappedStock initialParameters).layer_scores ∧
    (simulateScoring cappedStock initialParameters).old_recommendation =
      (simulateScoring cappedStock initialParameters).old_recommendation ∧
    (simulateScoring cappedStock initialParameters).new_recommendation =
      (simulateScoring cappedStock initialParameters).new_recommendation ∧
    simulateScoring cappedStock initialParameters =
      simulateScoring cappedStock initialParameters :=
  simulateScoring_deterministic cappedStock cappedStock initialParameters
    initialParameters rfl rfl

/-- C9: for a stock whose ticker does not occur in the persisted buy
list, toggling the star twice (add, then remove) restores the original
list, and the starred flag ends false. -/
theorem toggleStar_add_then_remove (buyList : List BuyEntry) (entry : BuyEntry)
    (h : ∀ s ∈ buyList, s.ticker ≠ entry.ticker) :
    (toggleStar (toggleStar false buyList entry).2
      (toggleStar false buyList entry).1 entry).1 = buyList ∧
    (toggleStar (toggleStar false buyList entry).2
      (toggleStar false buyList entry).1 entry).2 = false := by
  refine ⟨?_, rfl⟩
  show removeFromBuyList (addToBuyList buyList entry) entry.ticker = buyList
  unfold removeFromBuyList addToBuyList
  rw [List.filter_append]
  have h1 : buyList.filter (fun s => s.ticker != entry.ticker) = buyList :=
    List.filter_eq_self.mpr fun a ha => by
      simpa [bne_iff_ne] using h a ha
  have h2 : [entry].filter (fun s => s.ticker != entry.ticker) = [] := by
    simp
  rw [h1, h2, List.append_nil]

/-- Witness for C9 on a one-entry buy list and a new ticker. -/
theorem toggleStar_add_then_remove_witness :
    (toggleStar
      (toggleStar false [⟨"AAPL", 190, 80, "2025-01-01"⟩]
        ⟨"TSLA", 250, 70, "2025-01-02"⟩).2
      (toggleStar false [⟨"AAPL", 190, 80, "2025-01-01"⟩]
        ⟨"TSLA", 250, 70, "2025-01-02"⟩).1
      ⟨"TSLA", 250, 70, "2025-01-02"⟩).1 = [⟨"AAPL", 190, 80, "2025-01-01"⟩] ∧
    (toggleStar
      (toggleStar false [⟨"AAPL", 190, 80, "2025-01-01"⟩]
        ⟨"TSLA", 250, 70, "2025-01-02"⟩).2
      (toggleStar false [⟨"AAPL", 190, 80, "2025-01-01"⟩]
        ⟨"TSLA", 250, 70, "2025-01-02"⟩).1
      ⟨"TSLA", 250, 70, "2025-01-02"⟩).2 = false :=
  toggleStar_add_then_remove [⟨"AAPL", 190, 80, "2025-01-01"⟩]
    ⟨"TSLA", 250, 70, "2025-01-02"⟩ (by
      intro s hs
      simp only [List.mem_singleton] at hs
      subst hs
      decide)

/-- C10 counterexample: an input that supplies equal 52-week high and
low (a stock that traded flat) makes the `rangePosition` divisor zero,
so the divisor is not always nonzero. -/
theorem rangeDivisor_zero_on_flat_range :
    rangeDivisor (some 10) (some 10) 10 = 0 := by
  norm_num [rangeDivisor, high52w, low52w, jsOr]

/-- C10 (amended): the divisor is nonzero when both 52-week values fall
back to the price-derived defaults with a nonzero price, and when both
are supplied, nonzero (hence not falsy) and distinct; only a supplied
pair with high equal to low (or mixed cases that happen to coincide)
degenerates to a zero divisor. -/
theorem rangeDivisor_nonzero_cases :
    (∀ price : ℚ, price ≠ 0 → rangeDivisor none none price ≠ 0) ∧
    (∀ hv lv price : ℚ, hv ≠ 0 → lv ≠ 0 → hv ≠ lv →
      rangeDivisor (some hv) (some lv) price ≠ 0) := by
  constructor
  · intro price hp
    simp only [rangeDivisor, high52w, low52w, jsOr]
    intro hzero
    exact hp (by linarith)
  · intro hv lv price h1 h2 hne
    simp only [rangeDivisor, high52w, low52w, jsOr, if_neg h1, if_neg h2]
    intro hzero
    exact hne (by linarith)
